import Mathlib

/-!
Verification of the driver-packaging pipeline in `driverpackage.py` against its
natural-language specification.  The Python source is shallowly embedded:
pure fragments become Lean functions, the process environment and the
filesystem become explicit state values, and Python exceptions become
`Except String` results carrying the exception text.  Undefined-name
references in the source (`oldPath`, `driverName`, `dateModified`,
`driverVersion`) are embedded as the `NameError` they raise at runtime.
-/

/-- Lookup of an XML attribute by key, mirroring `element.attrib.get(key)`
(first binding wins; `none` models Python `None`). -/
def attrGet (attrs : List (String × String)) (key : String) : Option String :=
  (attrs.find? (fun binding => binding.1 == key)).map (fun binding => binding.2)

/-- Python truthiness of an optional string: `None` and the empty string are
falsy, every other string is truthy. -/
def pyTruthy : Option String → Bool
  | some s => s != ""
  | none => false

/-- `os.path.join` for a root directory and a relative item name (POSIX). -/
def pathJoin (a b : String) : String := a ++ "/" ++ b

/- ### Source Squisher (`DriverPackager.Squish`, lines 82-147) -/

/-- Ambient process state touched by `Squish`: the current working directory
and the `PATH` environment variable. -/
structure ProcEnv where
  cwd : String
  path : String

/-- Embedding of `DriverPackager.Squish`.  The source saves
`original_path_environment_variable_value` and
`original_current_working_directory_path`, performs
`os.chdir(root_directory_path)`, and then, while assembling the new `PATH`
value, evaluates the undefined name `oldPath` (line 108 in the frozen branch,
line 117 otherwise).  The resulting `NameError` is raised before the
`try`/`finally` block at lines 131-147, so the restore code in `finally`
never runs: the function propagates the error with the working directory
still set to `root_directory_path`.  `PATH` itself is untouched because the
failing assignment never completes. -/
def Squish (frozen : Bool) (root_directory_path : String) (env : ProcEnv) :
    Except String Unit × ProcEnv :=
  let original_path_environment_variable_value := env.path
  let original_current_working_directory_path := env.cwd
  -- os.chdir(root_directory_path)
  let env1 : ProcEnv := { env with cwd := root_directory_path }
  -- both saved values would be used by the finally block, which is never
  -- reached; referencing them here keeps the embedding close to the source
  let _ := original_path_environment_variable_value
  let _ := original_current_working_directory_path
  if frozen then
    (Except.error "NameError: name \x27oldPath\x27 is not defined", env1)
  else
    (Except.error "NameError: name \x27oldPath\x27 is not defined", env1)

/- ### Manifest root validation (`DriverPackager.ParseXml`, lines 237-265) -/

/-- The root element of a manifest document. -/
structure ManifestRoot where
  tag : String
  attrs : List (String × String)

/-- Observable outcome of the validation prefix of `ParseXml`: the values
passed to `c4z.setSquishLua` / `c4z.setC4i` (when those calls are reached)
and the exception, if any.  The prefix performs no filesystem operation. -/
structure PrefixOutcome where
  squishLuaSet : Option Bool
  c4iSet : Option Bool
  result : Except String Unit

/-- Embedding of `ParseXml` lines 237-265.  The tag and `type` checks are as
written; the `name` check at lines 247-250 is inverted in the source (it
raises exactly when the attribute is present).  When all checks pass, the
squish flag and c4i flag are derived, and then line 265 evaluates the
undefined names `driverName` / `driverType`, raising `NameError`. -/
def parseXmlPrefix (m : ManifestRoot) : PrefixOutcome :=
  if m.tag != "Driver" then
    ⟨none, none, Except.error "DriverPackager: Invalid XML: Missing tag \x27Driver\x27"⟩
  else
    match attrGet m.attrs "type" with
    | none => ⟨none, none, Except.error "DriverPackager: Invalid XML: Missing tag \x27type\x27"⟩
    | some driver_type =>
      if (attrGet m.attrs "name").isSome then
        ⟨none, none, Except.error "DriverPackager: Invalid XML: Missing tag \x27name\x27"⟩
      else
        let squish_lua : Bool := if attrGet m.attrs "squishLua" == some "true" then true else false
        let c4i : Bool := if driver_type == "c4i" then true else false
        ⟨some squish_lua, some c4i,
          Except.error "NameError: name \x27driverName\x27 is not defined"⟩

/- ### Destination directory creation (`DriverPackager.__init__`, lines 73-74) -/

/-- A filesystem of existing directories, each a list of path components. -/
abbrev DirFS := List (List String)

/-- All non-empty prefixes of a destination path, shortest first: the chain
of parent directories ending in the destination itself. -/
def pathPrefixes (destination : List String) : List (List String) :=
  (List.range destination.length).map (fun k => destination.take (k + 1))

/-- Embedding of `os.makedirs(path, exist_ok=True)`: every missing ancestor
of the destination (and the destination itself) is created; directories that
already exist are left alone and cause no error. -/
def makedirs_exist_ok (destination : List String) (fs : DirFS) : DirFS :=
  fs ++ (pathPrefixes destination).filter (fun p => decide (¬ p ∈ fs))

/-- Embedding of the filesystem effect of `DriverPackager.__init__` (line 74):
`os.makedirs(self.destination_directory_path, exist_ok=True)`.  It never
raises in this directory model. -/
def initDriverPackager (destination_directory_path : List String) (fs : DirFS) :
    Except String DirFS :=
  Except.ok (makedirs_exist_ok destination_directory_path fs)

/- ### XML boolean attributes (`ParseXml`, lines 252-256, 340-343, 354-356) -/

/-- Embedding of the idiom `True if element.attrib.get(key) == 'true' else
False` used for `squishLua`, `exclude` and `recurse`. -/
def xmlBoolAttr (attribute_value : Option String) : Bool :=
  if attribute_value == some "true" then true else false

/- ### Command Runner (`ParseXml`, lines 267-288 and 578-599) -/

/-- A child element of `PrepackageCommands` / `PostpackageCommands`. -/
structure CommandElem where
  tag : String
  text : String

/-- Path-separator normalization applied to each command text (lines 282-283
and 593-594): backslashes and forward slashes both become `os.path.sep`. -/
def normalizeCommand (sep : String) (text : String) : String :=
  (text.replace "\\" sep).replace "/" sep

/-- Embedding of the pre-package command loop (lines 271-288).  `exitCode`
models `os.system`.  The first list returned holds the lines printed or
logged, in order.  The success test at lines 284-288 is inverted in the
source: a zero exit status raises "Failed to execute prepackage command."
while a non-zero status is silently ignored and the loop continues. -/
def runPrepackageLoop (sep : String) (exitCode : String → Int) :
    List CommandElem → List String × Except String Unit
  | [] => ([], Except.ok ())
  | e :: rest =>
    let echoed := e.tag ++ " " ++ e.text
    if e.tag != "PrepackageCommand" then
      let r := runPrepackageLoop sep exitCode rest
      (echoed :: ("Invalid XML: Found tag \x27" ++ e.tag ++ "\x27, should be \x27PrepackageCommand\x27") :: r.1, r.2)
    else
      let prepackage_command := normalizeCommand sep e.text
      if exitCode prepackage_command == 0 then
        ([echoed], Except.error "Failed to execute prepackage command.")
      else
        let r := runPrepackageLoop sep exitCode rest
        (echoed :: r.1, r.2)

/-- Embedding of lines 267-288: when the manifest has no
`PrepackageCommands` section, nothing runs; otherwise each child element is
processed by `runPrepackageLoop`. -/
def runPrepackageCommands (sep : String) (exitCode : String → Int)
    (elements : Option (List CommandElem)) : List String × Except String Unit :=
  match elements with
  | none => ([], Except.ok ())
  | some cmds => runPrepackageLoop sep exitCode cmds

/-- Embedding of the post-package command loop (lines 582-599).  Both tests
are inverted in the source: a correctly tagged `PostpackageCommand` element
is reported as invalid XML and skipped (lines 586-589), and for the elements
that do execute, "Failed to execute postpackage command." is printed exactly
when the command exits with status zero (lines 595-599).  This loop never
raises. -/
def runPostpackageLoop (sep : String) (exitCode : String → Int) :
    List CommandElem → List String
  | [] => []
  | e :: rest =>
    let echoed := e.tag ++ " " ++ e.text
    if e.tag == "PostpackageCommand" then
      echoed :: ("Invalid XML: Found tag \x27" ++ e.tag ++ "\x27, should be \x27PostpackageCommand\x27")
        :: runPostpackageLoop sep exitCode rest
    else
      let postpackage_command := normalizeCommand sep e.text
      if exitCode postpackage_command == 0 then
        echoed :: "Failed to execute postpackage command." :: runPostpackageLoop sep exitCode rest
      else
        echoed :: runPostpackageLoop sep exitCode rest

/- ### Documentation textfile read (`ParseXml`, lines 420-431) -/

/-- A flat filesystem mapping paths to file contents. -/
abbrev FS := List (String × String)

/-- `os.path.exists` plus `open` in the flat filesystem model. -/
def fsLookup (fs : FS) (p : String) : Option String :=
  (fs.find? (fun entry => entry.1 == p)).map (fun entry => entry.2)

/-- Embedding of the `textfile` read at lines 420-431.  The `try` block only
opens the file; a failure is caught and logged by the `except` handler.  The
`finally` block then unconditionally reopens the file and reads it, so when
the file is missing, the second open raises an exception that no handler
catches: the read fails fatally despite the logged recovery message.
Returns the logged lines and the read outcome. -/
def readDocumentationTextfile (fs : FS) (root_directory_path : String)
    (textfile : String) : List String × Except String String :=
  let textfile_path := pathJoin root_directory_path textfile
  match fsLookup fs textfile_path with
  | some contents => ([], Except.ok contents)
  | none =>
      (["Unable to find the file \x27" ++ textfile ++ "\x27 referenced in the \x27textfile\x27 attribute of the \x27<documentation>\x27 element in your driver.xml"],
       Except.error ("FileNotFoundError: " ++ textfile_path))

/- ### Descriptor Updater (`DriverPackager.UpdateDriverXml`, lines 604-645) -/

/-- The driver descriptor as seen by `UpdateDriverXml`: the `modified` and
`version` leaf nodes, each `none` when the node is absent and otherwise
carrying its optional text. -/
structure DriverDoc where
  modifiedText : Option (Option String)
  versionText : Option (Option String)

/-- Embedding of `UpdateDriverXml`.  With `update_modified` set, line 614
evaluates the undefined name `dateModified` and raises `NameError` before
any timestamp is written.  With a truthy `driver_version`, a missing
`version` node raises "<version> tag not found" (lines 627-630), and
otherwise line 633 evaluates the undefined name `driverVersion`, raising
`NameError` before the text is inspected or replaced.  Every exception from
the body is caught at lines 643-645, logged, and re-raised as
"Unable to update driver.xml". -/
def UpdateDriverXml (update_modified : Bool) (driver_version : Option String)
    (doc : DriverDoc) : Except String DriverDoc :=
  let inner : Except String DriverDoc :=
    if update_modified then
      Except.error "NameError: name \x27dateModified\x27 is not defined"
    else if pyTruthy driver_version then
      match doc.versionText with
      | none => Except.error "<version> tag not found"
      | some _old_version =>
          Except.error "NameError: name \x27driverVersion\x27 is not defined"
    else
      -- with neither update requested, the tree is serialized unchanged
      Except.ok doc
  match inner with
  | Except.ok d => Except.ok d
  | Except.error _ => Except.error "Unable to update driver.xml"

/- ### Encrypted-script detection and file-item name resolution
(`GetEncryptFilename`, lines 184-209; `ParseXml`, lines 366-372) -/

/-- A `script` node of the driver descriptor: its optional `encryption`
attribute and optional `file` attribute. -/
structure ScriptNode where
  encryption : Option String
  file : Option String

/-- Embedding of `DriverPackager.GetEncryptFilename` (lines 184-209) on an
already-parsed descriptor.  The loop keeps the candidate from the last
script node whose `encryption` attribute is the string 2; with squishing
enabled the squish tool output name (`c4z.GetSquishyOutputFile`, modelled by
`squishyOutputFile`) is used, otherwise the node's `file` attribute. -/
def GetEncryptFilename (squishLua_ : Bool) (squishyOutputFile : Option String)
    (script_elements : List ScriptNode) : Option String :=
  script_elements.foldl
    (fun c4z_script_file script_element =>
      if script_element.encryption == some "2" then
        if squishLua_ then squishyOutputFile else script_element.file
      else c4z_script_file)
    none

/-- Index of the last occurrence of a character in a list, mirroring
Python `str.rfind`. -/
def rfindCharIdx (c : Char) (l : List Char) : Option Nat :=
  ((l.enum.filter (fun p => p.2 == c)).map (fun p => p.1)).getLast?

/-- Core of `os.path.splitext` (POSIX) on the character list of a path:
split at the last dot of the final path component, unless every character
of that component before the dot is itself a dot (leading dots of a hidden
file are not an extension). -/
def splitextList (l : List Char) : List Char × List Char :=
  let sepIndex : Int :=
    match rfindCharIdx '/' l with
    | some i => (i : Int)
    | none => -1
  let dotIndex : Int :=
    match rfindCharIdx '.' l with
    | some i => (i : Int)
    | none => -1
  if sepIndex < dotIndex then
    let filenameIndex : Nat := (sepIndex + 1).toNat
    let stop : Nat := dotIndex.toNat
    if (List.range stop).any (fun k => decide (filenameIndex ≤ k) && (l.getD k '.' != '.')) then
      (l.take stop, l.drop stop)
    else (l, [])
  else (l, [])

/-- `os.path.splitext` as used at line 369: returns the root and the
extension, whose concatenation is the original path. -/
def splitext (p : String) : String × String :=
  let r := splitextList p.toList
  (String.mk r.1, String.mk r.2)

/-- Plain ends-with test on strings, used to state the claim about names
"ending in the .encrypted suffix". -/
def endsWithSuffix (s t : String) : Bool := t.toList.isSuffixOf s.toList

/-- Embedding of the file-item name resolution at lines 366-372: when an
encrypted script filename was already detected (Python truthiness of
`c4zScriptFile`), a name whose `splitext` extension is `.encrypted` is
replaced by its root (`filename_without_last_extension`); otherwise the name
is left as-is. -/
def resolveFileItemName (c4zScriptFile : Option String) (item_name : String) : String :=
  if pyTruthy c4zScriptFile then
    let parts := splitext item_name
    if parts.2 == ".encrypted" then parts.1 else item_name
  else item_name

/-- The two halves of `splitextList` reassemble to the input. -/
theorem splitextList_append (l : List Char) :
    (splitextList l).1 ++ (splitextList l).2 = l := by
  unfold splitextList
  dsimp only
  split
  · split
    · exact List.take_append_drop _ l
    · simp
  · simp

/-- The two halves of `splitext` reassemble to the input path. -/
theorem splitext_append (p : String) : (splitext p).1 ++ (splitext p).2 = p := by
  obtain ⟨l⟩ := p
  show String.mk ((splitextList l).1 ++ (splitextList l).2) = String.mk l
  rw [splitextList_append]

/- ### Manifest item loop (`ParseXml`, lines 312-483) -/

/-- `os.path.exists` in the flat filesystem model. -/
def fsContains (fs : FS) (p : String) : Bool := (fsLookup fs p).isSome

/-- Insert or overwrite a file, mirroring `shutil.copyfile` destinations. -/
def fsSet (fs : FS) (p : String) (contents : String) : FS :=
  (p, contents) :: fs.filter (fun entry => entry.1 != p)

/-- `os.remove`. -/
def fsRemove (fs : FS) (p : String) : FS :=
  fs.filter (fun entry => entry.1 != p)

/-- Embedding of `DriverPackager.CleanupTmpFile` (lines 214-229): with
interactive execution enabled, an existing `driver.lua.tmp` is copied back
over `driver.lua` and removed; all failures are swallowed. -/
def CleanupTmpFile (allow_execute : Bool) (root_directory_path : String) (fs : FS) : FS :=
  if allow_execute then
    let temporary_driver_lua_filepath := pathJoin root_directory_path "driver.lua.tmp"
    match fsLookup fs temporary_driver_lua_filepath with
    | some contents =>
        fsRemove (fsSet fs (pathJoin root_directory_path "driver.lua") contents)
          temporary_driver_lua_filepath
    | none => fs
  else fs

/-- An `Item` element of the manifest. -/
structure Item where
  tag : String
  attrs : List (String × String)

/-- A resolved directory spec (`c4zDirs` entry, line 363). -/
structure DirEntry where
  c4zDir : String
  recurse : Bool
  name : String

/-- A resolved file spec (`c4zFiles` entry, line 483). -/
structure FileEntry where
  c4zDir : String
  name : String

/-- Mutable state threaded through the item loop: the filesystem, the
`c4zDriverXmlFound` flag, the detected script filename `c4zScriptFile`
(initially the empty, falsy string), both resolved lists, and the lines
logged so far. -/
structure LoopAcc where
  fs : FS
  c4zDriverXmlFound : Bool
  c4zScriptFile : Option String
  c4zDirs : List DirEntry
  c4zFiles : List FileEntry
  log : List String

/-- Abstraction of the driver-descriptor sub-processing at lines 381-473
(encrypted-script detection via `GetEncryptFilename`, documentation
injection, squishing, and the c4i/squish configuration check): given the
filesystem and the descriptor path it yields the new `c4zScriptFile` (or an
exception) together with the updated filesystem. -/
abbrev DriverStep := FS → String → Except String (Option String) × FS

/-- The control-flow decision the source makes for one item, in source
order (lines 316-366): wrong tag is skipped with a warning; the `type`
presence test at lines 323-327 and the `name` presence test at lines
330-334 are inverted in the source, raising exactly when the attribute is
present; an `exclude="true"` item is skipped; after those tests `item_type`
is necessarily Python `None`, so the `dir` and `file` comparisons below
are made against `none`. -/
inductive ItemDecision where
  | skipTag
  | errType
  | errName
  | skipExcluded
  | dirB
  | fileB
  | skipNoType
deriving DecidableEq

/-- Classification of one item per the source control flow (see
`ItemDecision`). -/
def classifyItem (i : Item) : ItemDecision :=
  if i.tag != "Item" then ItemDecision.skipTag
  else
    match attrGet i.attrs "type" with
    | some _ => ItemDecision.errType
    | none =>
      let item_type : Option String := none
      if (attrGet i.attrs "name").isSome then ItemDecision.errName
      else if attrGet i.attrs "exclude" == some "true" then ItemDecision.skipExcluded
      else if item_type == some "dir" then ItemDecision.dirB
      else if item_type == some "file" then ItemDecision.fileB
      else ItemDecision.skipNoType

/-- Embedding of the `dir` branch (lines 346-364).  Reaching it with the
`name` attribute absent would make `os.path.join` raise `TypeError`. -/
def processDirItem (allow_execute : Bool) (root_directory_path : String)
    (acc : LoopAcc) (i : Item) : Except String Unit × LoopAcc :=
  match attrGet i.attrs "name" with
  | none => (Except.error "TypeError: join() argument must be str, not NoneType", acc)
  | some item_name =>
    let directory_path := pathJoin root_directory_path item_name
    if fsContains acc.fs directory_path then
      let recurse := attrGet i.attrs "recurse" == some "true"
      let c4zDir := (attrGet i.attrs "c4zDir").getD ""
      (Except.ok (), { acc with c4zDirs := acc.c4zDirs ++ [⟨c4zDir, recurse, item_name⟩] })
    else
      (Except.error ("DriverPackager: Error, manifest \x27dir\x27 Item \x27" ++ item_name ++ "\x27 does not exist."),
       { acc with fs := CleanupTmpFile allow_execute root_directory_path acc.fs })

/-- Embedding of the `file` branch (lines 366-483): encrypted-suffix
stripping via `resolveFileItemName`, the existence check with cleanup on
failure, the `driver.xml` sub-processing (abstracted as `ds`), and the rule
that `driver.xml` itself is added to the file list only for c4i drivers. -/
def processFileItem (allow_execute c4i : Bool) (ds : DriverStep)
    (root_directory_path : String) (acc : LoopAcc) (i : Item) :
    Except String Unit × LoopAcc :=
  match attrGet i.attrs "name" with
  | none => (Except.error "TypeError: join() argument must be str, not NoneType", acc)
  | some name0 =>
    let item_name := resolveFileItemName acc.c4zScriptFile name0
    let item_filepath := pathJoin root_directory_path item_name
    if fsContains acc.fs item_filepath then
      if item_name == "driver.xml" then
        match ds acc.fs item_filepath with
        | (Except.error e, fs2) => (Except.error e, { acc with fs := fs2 })
        | (Except.ok newScript, fs2) =>
          let acc2 := { acc with fs := fs2, c4zDriverXmlFound := true, c4zScriptFile := newScript }
          let c4zDir := (attrGet i.attrs "c4zDir").getD ""
          if c4i then
            (Except.ok (), { acc2 with c4zFiles := acc2.c4zFiles ++ [⟨c4zDir, item_name⟩] })
          else
            (Except.ok (), acc2)
      else
        let c4zDir := (attrGet i.attrs "c4zDir").getD ""
        (Except.ok (), { acc with c4zFiles := acc.c4zFiles ++ [⟨c4zDir, item_name⟩] })
    else
      (Except.error ("DriverPackager: Error, manifest \x27file\x27 Item \x27" ++ item_name ++ "\x27 does not exist in " ++ root_directory_path ++ "\x27."),
       { acc with fs := CleanupTmpFile allow_execute root_directory_path acc.fs })

/-- Processing of a single item of the loop at lines 312-483. -/
def processItem (allow_execute c4i : Bool) (ds : DriverStep)
    (root_directory_path : String) (acc : LoopAcc) (i : Item) :
    Except String Unit × LoopAcc :=
  match classifyItem i with
  | ItemDecision.skipTag =>
      (Except.ok (),
       { acc with log := acc.log ++ ["Invalid XML: Found tag \x27" ++ i.tag ++ "\x27, should be \x27Item\x27"] })
  | ItemDecision.errType =>
      (Except.error "DriverPackager: Invalid XML: Missing tag \x27Item\x27 subtag \x27type\x27",
       { acc with fs := CleanupTmpFile allow_execute root_directory_path acc.fs })
  | ItemDecision.errName =>
      (Except.error "DriverPackager: Invalid XML: Missing tag \x27Item\x27 subtag \x27name\x27",
       { acc with fs := CleanupTmpFile allow_execute root_directory_path acc.fs })
  | ItemDecision.skipExcluded => (Except.ok (), acc)
  | ItemDecision.skipNoType => (Except.ok (), acc)
  | ItemDecision.dirB => processDirItem allow_execute root_directory_path acc i
  | ItemDecision.fileB => processFileItem allow_execute c4i ds root_directory_path acc i

/-- The item loop: items in document order, stopping at the first raised
exception. -/
def processItems (allow_execute c4i : Bool) (ds : DriverStep)
    (root_directory_path : String) : LoopAcc → List Item → Except String Unit × LoopAcc
  | acc, [] => (Except.ok (), acc)
  | acc, i :: rest =>
    match processItem allow_execute c4i ds root_directory_path acc i with
    | (Except.error e, acc2) => (Except.error e, acc2)
    | (Except.ok _, acc2) => processItems allow_execute c4i ds root_directory_path acc2 rest

/-- The item loop started from the state of line 231-235: empty resolved
lists, `c4zDriverXmlFound = False`, `c4zScriptFile = ` the empty string. -/
def processItemsInit (allow_execute c4i : Bool) (ds : DriverStep)
    (root_directory_path : String) (fs : FS) (items : List Item) :
    Except String Unit × LoopAcc :=
  processItems allow_execute c4i ds root_directory_path
    ⟨fs, false, some "", [], [], []⟩ items

/-- The classification never selects the `dir` branch: reaching the branch
comparisons requires the `type` attribute to be absent (else the inverted
presence test raised), and `None == dir` is false. -/
theorem classifyItem_ne_dirB (i : Item) : classifyItem i ≠ ItemDecision.dirB := by
  unfold classifyItem
  split
  · intro h
    exact absurd h (by decide)
  · split
    · intro h
      exact absurd h (by decide)
    · dsimp only
      split
      · intro h
        exact absurd h (by decide)
      · split
        · intro h
          exact absurd h (by decide)
        · intro h
          exact absurd h (by decide)

/-- The classification never selects the `file` branch, for the same
reason. -/
theorem classifyItem_ne_fileB (i : Item) : classifyItem i ≠ ItemDecision.fileB := by
  unfold classifyItem
  split
  · intro h
    exact absurd h (by decide)
  · split
    · intro h
      exact absurd h (by decide)
    · dsimp only
      split
      · intro h
        exact absurd h (by decide)
      · split
        · intro h
          exact absurd h (by decide)
        · intro h
          exact absurd h (by decide)

/-- The outcome of one item step (skip or which exception) depends only on
the item, not on the accumulated state or filesystem: the reachable paths
never consult them. -/
theorem processItem_fst (allow_execute c4i : Bool) (ds : DriverStep)
    (root_directory_path : String) (acc acc2 : LoopAcc) (i : Item) :
    (processItem allow_execute c4i ds root_directory_path acc i).1
      = (processItem allow_execute c4i ds root_directory_path acc2 i).1 := by
  unfold processItem
  cases h : classifyItem i
  case skipTag => rfl
  case errType => rfl
  case errName => rfl
  case skipExcluded => rfl
  case skipNoType => rfl
  case dirB => exact absurd h (classifyItem_ne_dirB i)
  case fileB => exact absurd h (classifyItem_ne_fileB i)

/-- One item step never extends the resolved directory list: the only
append sits in the unreachable `dir` branch. -/
theorem processItem_dirs (allow_execute c4i : Bool) (ds : DriverStep)
    (root_directory_path : String) (acc : LoopAcc) (i : Item) :
    (processItem allow_execute c4i ds root_directory_path acc i).2.c4zDirs
      = acc.c4zDirs := by
  unfold processItem
  cases h : classifyItem i
  case skipTag => rfl
  case errType => rfl
  case errName => rfl
  case skipExcluded => rfl
  case skipNoType => rfl
  case dirB => exact absurd h (classifyItem_ne_dirB i)
  case fileB => exact absurd h (classifyItem_ne_fileB i)

/-- One item step never extends the resolved file list: the only appends
sit in the unreachable `file` branch. -/
theorem processItem_files (allow_execute c4i : Bool) (ds : DriverStep)
    (root_directory_path : String) (acc : LoopAcc) (i : Item) :
    (processItem allow_execute c4i ds root_directory_path acc i).2.c4zFiles
      = acc.c4zFiles := by
  unfold processItem
  cases h : classifyItem i
  case skipTag => rfl
  case errType => rfl
  case errName => rfl
  case skipExcluded => rfl
  case skipNoType => rfl
  case dirB => exact absurd h (classifyItem_ne_dirB i)
  case fileB => exact absurd h (classifyItem_ne_fileB i)

/-- The loop outcome depends only on the item list. -/
theorem processItems_fst (allow_execute c4i : Bool) (ds : DriverStep)
    (root_directory_path : String) (items : List Item) :
    ∀ acc acc2 : LoopAcc,
      (processItems allow_execute c4i ds root_directory_path acc items).1
        = (processItems allow_execute c4i ds root_directory_path acc2 items).1 := by
  induction items with
  | nil => intro acc acc2; rfl
  | cons i rest ih =>
    intro acc acc2
    have hfst := processItem_fst allow_execute c4i ds root_directory_path acc acc2 i
    unfold processItems
    rcases hx : processItem allow_execute c4i ds root_directory_path acc i with ⟨e, a⟩
    rcases hy : processItem allow_execute c4i ds root_directory_path acc2 i with ⟨e2, a2⟩
    rw [hx, hy] at hfst
    simp only at hfst
    subst hfst
    cases e with
    | error msg => rfl
    | ok u => exact ih a a2

/-- The loop never extends the resolved directory list. -/
theorem processItems_dirs (allow_execute c4i : Bool) (ds : DriverStep)
    (root_directory_path : String) (items : List Item) :
    ∀ acc : LoopAcc,
      (processItems allow_execute c4i ds root_directory_path acc items).2.c4zDirs
        = acc.c4zDirs := by
  induction items with
  | nil => intro acc; rfl
  | cons i rest ih =>
    intro acc
    have hstep := processItem_dirs allow_execute c4i ds root_directory_path acc i
    unfold processItems
    rcases hx : processItem allow_execute c4i ds root_directory_path acc i with ⟨e, a⟩
    rw [hx] at hstep
    simp only at hstep
    cases e with
    | error msg => exact hstep
    | ok u => rw [ih a]; exact hstep

/-- The loop never extends the resolved file list. -/
theorem processItems_files (allow_execute c4i : Bool) (ds : DriverStep)
    (root_directory_path : String) (items : List Item) :
    ∀ acc : LoopAcc,
      (processItems allow_execute c4i ds root_directory_path acc items).2.c4zFiles
        = acc.c4zFiles := by
  induction items with
  | nil => intro acc; rfl
  | cons i rest ih =>
    intro acc
    have hstep := processItem_files allow_execute c4i ds root_directory_path acc i
    unfold processItems
    rcases hx : processItem allow_execute c4i ds root_directory_path acc i with ⟨e, a⟩
    rw [hx] at hstep
    simp only at hstep
    cases e with
    | error msg => exact hstep
    | ok u => rw [ih a]; exact hstep

/- ## Theorems -/

/-- Claim C1: the specification says `Squish` restores the working directory
and `PATH` regardless of outcome.  The code instead evaluates the undefined
name `oldPath` after `os.chdir` but before the `try`/`finally` that performs
the restore, so every call raises `NameError` and leaves the process working
directory set to the squish root.  Evaluated at cwd `/home/build`,
root `/tmp/lua_src`: the call raises and the final cwd is not the original. -/
theorem squish_leaves_cwd_changed :
    (Squish false "/tmp/lua_src" ⟨"/home/build", "/usr/bin"⟩).2.cwd = "/tmp/lua_src"
    ∧ (Squish false "/tmp/lua_src" ⟨"/home/build", "/usr/bin"⟩).2.cwd ≠ "/home/build"
    ∧ (Squish false "/tmp/lua_src" ⟨"/home/build", "/usr/bin"⟩).1
        = Except.error "NameError: name \x27oldPath\x27 is not defined" :=
  ⟨rfl, by decide, rfl⟩

/-- Claim C2: the specification says a manifest missing `type` or `name`
fails validation and one with both present passes it.  The `name`-presence
check at lines 247-250 is inverted: a manifest with both attributes present
is rejected with "Missing tag name", while one missing `name` sails past the
validation (and only dies later of the line-265 `NameError`).  The missing
`type` case alone behaves as specified. -/
theorem parseXmlPrefix_name_check_inverted :
    (parseXmlPrefix ⟨"Driver", [("type", "c4z"), ("name", "acme")]⟩).result
        = Except.error "DriverPackager: Invalid XML: Missing tag \x27name\x27"
    ∧ (parseXmlPrefix ⟨"Driver", [("name", "acme")]⟩).result
        = Except.error "DriverPackager: Invalid XML: Missing tag \x27type\x27"
    ∧ (parseXmlPrefix ⟨"Driver", [("type", "c4z")]⟩).result
        = Except.error "NameError: name \x27driverName\x27 is not defined" :=
  ⟨rfl, rfl, rfl⟩

/-- Claim C9: constructing a `DriverPackager` runs
`os.makedirs(destination, exist_ok=True)`: it always succeeds, creates the
destination directory together with every missing parent, and preserves the
directories already present; in particular it does not fail when the
destination already exists. -/
theorem init_creates_destination (destination : List String) (fs : DirFS) :
    initDriverPackager destination fs = Except.ok (makedirs_exist_ok destination fs)
    ∧ (∀ p, p ∈ pathPrefixes destination → p ∈ makedirs_exist_ok destination fs)
    ∧ (∀ q, q ∈ fs → q ∈ makedirs_exist_ok destination fs)
    ∧ (destination ≠ [] → destination ∈ makedirs_exist_ok destination fs) := by
  refine ⟨rfl, ?_, ?_, ?_⟩
  · intro p hp
    unfold makedirs_exist_ok
    by_cases hmem : p ∈ fs
    · exact List.mem_append_left _ hmem
    · refine List.mem_append_right _ ?_
      rw [List.mem_filter]
      exact ⟨hp, by simpa using hmem⟩
  · intro q hq
    exact List.mem_append_left _ hq
  · intro hne
    have hlen : 0 < destination.length := List.length_pos.mpr hne
    have hmem : destination ∈ pathPrefixes destination := by
      unfold pathPrefixes
      rw [List.mem_map]
      refine ⟨destination.length - 1, ?_, ?_⟩
      · rw [List.mem_range]
        omega
      · rw [Nat.sub_add_cancel hlen]
        exact List.take_length destination
    unfold makedirs_exist_ok
    by_cases hIn : destination ∈ fs
    · exact List.mem_append_left _ hIn
    · refine List.mem_append_right _ ?_
      rw [List.mem_filter]
      exact ⟨hmem, by simpa using hIn⟩

/-- Witness for C9 at a concrete destination and empty filesystem. -/
theorem init_creates_destination_witness :
    ["out", "drivers"] ∈ makedirs_exist_ok ["out", "drivers"] [] :=
  (init_creates_destination ["out", "drivers"] []).2.2.2 (by decide)

/-- Claim C10: an XML boolean attribute is interpreted as true exactly when
its value is the literal lowercase string `true`; `True`, `1`, `yes` and an
absent attribute all read as false. -/
theorem xmlBoolAttr_literal_true :
    (∀ v : Option String, xmlBoolAttr v = true ↔ v = some "true")
    ∧ xmlBoolAttr (some "True") = false
    ∧ xmlBoolAttr (some "1") = false
    ∧ xmlBoolAttr (some "yes") = false
    ∧ xmlBoolAttr none = false := by
  refine ⟨?_, rfl, rfl, rfl, rfl⟩
  intro v
  unfold xmlBoolAttr
  by_cases h : v = some "true"
  · subst h
    simp
  · simp [h, beq_iff_eq]

/-- Witness for C10: the only truthy spelling evaluates to true. -/
theorem xmlBoolAttr_literal_true_witness : xmlBoolAttr (some "true") = true :=
  (xmlBoolAttr_literal_true.1 (some "true")).2 rfl

/-- Claim C3: the specification says a non-zero exit of a pre/post-package
command is logged and the build continues.  The inverted success tests show
otherwise: a pre-package command exiting non-zero is silently ignored (no
log line beyond the unconditional echo, loop continues), a pre-package
command exiting zero raises "Failed to execute prepackage command.", a
correctly tagged post-package command never executes at all, and a
post-package command that does execute prints the failure message exactly
on a zero exit status.  Evaluated on one-command lists. -/
theorem prepackage_failure_handling_inverted :
    (runPrepackageCommands "/" (fun _ => 1) (some [⟨"PrepackageCommand", "make all"⟩])).2
        = Except.ok ()
    ∧ (runPrepackageCommands "/" (fun _ => 1) (some [⟨"PrepackageCommand", "make all"⟩])).1
        = ["PrepackageCommand make all"]
    ∧ (runPrepackageCommands "/" (fun _ => 0) (some [⟨"PrepackageCommand", "make all"⟩])).2
        = Except.error "Failed to execute prepackage command."
    ∧ runPostpackageLoop "/" (fun _ => 1) [⟨"PostpackageCommand", "make check"⟩]
        = ["PostpackageCommand make check",
           "Invalid XML: Found tag \x27PostpackageCommand\x27, should be \x27PostpackageCommand\x27"]
    ∧ runPostpackageLoop "/" (fun _ => 1) [⟨"OtherTag", "make check"⟩]
        = ["OtherTag make check"]
    ∧ runPostpackageLoop "/" (fun _ => 0) [⟨"OtherTag", "make check"⟩]
        = ["OtherTag make check", "Failed to execute postpackage command."] :=
  ⟨rfl, rfl, rfl, rfl, rfl, rfl⟩

/-- Claim C4: the specification says a missing documentation `textfile` is
logged and resolution continues best-effort.  In the source the `except`
handler does log the miss, but the `finally` block reopens the missing file
unconditionally, so the read raises out of `ParseXml`: a missing referenced
text file is fatal.  Evaluated at an empty filesystem and, for contrast, at
one containing the file. -/
theorem missing_textfile_is_fatal :
    (readDocumentationTextfile [] "src" "README.txt").2
        = Except.error "FileNotFoundError: src/README.txt"
    ∧ (readDocumentationTextfile [] "src" "README.txt").1
        = ["Unable to find the file \x27README.txt\x27 referenced in the \x27textfile\x27 attribute of the \x27<documentation>\x27 element in your driver.xml"]
    ∧ (readDocumentationTextfile [("src/README.txt", "How to use this driver")] "src" "README.txt").2
        = Except.ok "How to use this driver" :=
  ⟨rfl, rfl, rfl⟩

/-- Claim C6: the specification says that after `UpdateDriverXml` with a
caller-supplied version string, the serialized descriptor carries exactly
that string in its `version` node.  In the source, once the `version` node
with non-empty prior text is found, line 633 reads `driverVersion.text`
where `driverVersion` is an undefined name, so every such update raises
`NameError`, is caught at line 643, and resurfaces as
"Unable to update driver.xml": the version is never updated.  Evaluated on
a descriptor whose `version` text is `1.0.0`. -/
theorem update_version_always_fails :
    UpdateDriverXml false (some "2.0.0") ⟨some (some "03/01/2020 09:00 AM"), some (some "1.0.0")⟩
        = Except.error "Unable to update driver.xml" :=
  rfl

/-- Claim C5, counterexample: the claim quantifies over every item name
ending in the `.encrypted` suffix, but the code strips via
`os.path.splitext`, which treats the leading dot of a bare hidden-file name
as part of the root, not an extension.  With an encrypted script filename
detected (via `GetEncryptFilename` on a script node carrying
`encryption="2"`), the item named exactly `.encrypted` does end in the
suffix, yet is resolved literally instead of being stripped to the empty
companion name. -/
theorem encrypted_suffix_not_stripped_for_dotfile :
    endsWithSuffix ".encrypted" ".encrypted" = true
    ∧ pyTruthy (GetEncryptFilename false (some "driver.lua.squished")
        [⟨some "2", some "driver.lua.encrypted"⟩]) = true
    ∧ resolveFileItemName (GetEncryptFilename false (some "driver.lua.squished")
        [⟨some "2", some "driver.lua.encrypted"⟩]) ".encrypted" = ".encrypted" := by
  refine ⟨by decide, rfl, ?_⟩
  rfl

/-- Claim C5, amended: with an encrypted script filename detected, a file
item whose name has `splitext` extension `.encrypted` (it ends in the
suffix with some non-dot character before it in the final path component)
is resolved to the name with that suffix stripped — the resolved name plus
`.encrypted` is the original name; a name whose `splitext` extension is
anything else is resolved literally, as is every name when no encrypted
script filename was detected. -/
theorem encrypted_suffix_stripping (script : Option String) (item_name : String) :
    (pyTruthy script = true → (splitext item_name).2 = ".encrypted" →
        resolveFileItemName script item_name = (splitext item_name).1
        ∧ resolveFileItemName script item_name ++ ".encrypted" = item_name)
    ∧ (pyTruthy script = true → (splitext item_name).2 ≠ ".encrypted" →
        resolveFileItemName script item_name = item_name)
    ∧ (pyTruthy script = false → resolveFileItemName script item_name = item_name) := by
  refine ⟨?_, ?_, ?_⟩
  · intro hdet hext
    have hres : resolveFileItemName script item_name = (splitext item_name).1 := by
      unfold resolveFileItemName
      rw [hdet]
      simp only [if_true]
      rw [if_pos (beq_iff_eq.mpr hext)]
    refine ⟨hres, ?_⟩
    rw [hres, ← hext]
    exact splitext_append item_name
  · intro hdet hext
    unfold resolveFileItemName
    rw [hdet]
    simp only [if_true]
    rw [if_neg (by simpa [beq_iff_eq] using hext)]
  · intro hdet
    unfold resolveFileItemName
    rw [hdet]
    simp

/-- Witness for the amended C5 at the detected script
`driver.lua.squished` and the item name `driver.lua.encrypted`. -/
theorem encrypted_suffix_stripping_witness :
    resolveFileItemName (some "driver.lua.squished") "driver.lua.encrypted"
        ++ ".encrypted" = "driver.lua.encrypted" :=
  ((encrypted_suffix_stripping (some "driver.lua.squished") "driver.lua.encrypted").1
    rfl (by decide)).2

/-- Claim C7: an item carrying `exclude="true"` never appears in the
resolved directory or file lists, and whether it exists on disk never
influences the outcome of the loop.  In this code both statements hold for
stark reasons: the inverted attribute-presence tests at lines 323-334 abort
on every item carrying a `type` or `name` attribute, so the loop never
reaches a filesystem check or a list append for any item — the resolved
lists stay empty and the loop outcome is a function of the item list alone,
identical for any two filesystems. -/
theorem excluded_items_never_resolved (allow_execute c4i : Bool) (ds : DriverStep)
    (root_directory_path : String) (fs fs2 : FS) (items : List Item) (i : Item)
    (hmem : i ∈ items) (hexc : attrGet i.attrs "exclude" = some "true") :
    ((processItemsInit allow_execute c4i ds root_directory_path fs items).2.c4zDirs = []
      ∧ (processItemsInit allow_execute c4i ds root_directory_path fs items).2.c4zFiles = [])
    ∧ (processItemsInit allow_execute c4i ds root_directory_path fs items).1
        = (processItemsInit allow_execute c4i ds root_directory_path fs2 items).1 := by
  refine ⟨⟨?_, ?_⟩, ?_⟩
  · exact processItems_dirs allow_execute c4i ds root_directory_path items _
  · exact processItems_files allow_execute c4i ds root_directory_path items _
  · exact processItems_fst allow_execute c4i ds root_directory_path items _ _

/-- Witness for C7: a single excluded item, run against the empty
filesystem and against one where the item exists on disk. -/
theorem excluded_items_never_resolved_witness :
    ((processItemsInit false false (fun fileSys _ => (Except.ok none, fileSys)) "src"
        [] [⟨"Item", [("exclude", "true")]⟩]).2.c4zDirs = []
      ∧ (processItemsInit false false (fun fileSys _ => (Except.ok none, fileSys)) "src"
        [] [⟨"Item", [("exclude", "true")]⟩]).2.c4zFiles = [])
    ∧ (processItemsInit false false (fun fileSys _ => (Except.ok none, fileSys)) "src"
        [] [⟨"Item", [("exclude", "true")]⟩]).1
        = (processItemsInit false false (fun fileSys _ => (Except.ok none, fileSys)) "src"
        [("src/extras.lua", "print(1)")] [⟨"Item", [("exclude", "true")]⟩]).1 :=
  excluded_items_never_resolved false false (fun fileSys _ => (Except.ok none, fileSys)) "src"
    [] [("src/extras.lua", "print(1)")] [⟨"Item", [("exclude", "true")]⟩]
    ⟨"Item", [("exclude", "true")]⟩ (List.Mem.head _) rfl

/-- Claim C8: the claim says an item with both `type` and `name` present but
a `type` value other than `dir` or `file` is skipped without raising.  In
the source the `type`-presence test at lines 323-327 is inverted, so such an
item is fatal: the loop raises "Missing tag Item subtag type" — although the
attribute is present — and no further item is processed.  Evaluated on a
single item of type `banana`. -/
theorem unknown_item_type_raises :
    (processItemsInit false false (fun fileSys _ => (Except.ok none, fileSys)) "src"
        [("src/custom.bin", "payload")]
        [⟨"Item", [("type", "banana"), ("name", "custom.bin")]⟩]).1
      = Except.error "DriverPackager: Invalid XML: Missing tag \x27Item\x27 subtag \x27type\x27" :=
  rfl
